import Mathlib

/-!
Verification development for the photo metadata extraction module
(`photo_processor.py`).  The Python source is shallowly embedded:

* Python floats are modelled as `ℚ` (all arithmetic in the module is
  exact at the granularity the specification talks about);
* JSON / EXIF values are modelled by the tagged union `JVal`;
* every fallible Python operation is modelled with `Option`;
* results of external collaborators (the ExifTool subprocess, the macOS
  `mdls`/`sips` commands, the image-decoding library, the filesystem)
  are supplied as explicit inputs (`Env`), since the module consumes
  them only through narrow parse-the-output interfaces.

Definitions are translated from the source file; the line numbers in
the doc comments refer to `photo_processor.py`.
-/

set_option maxHeartbeats 1000000

namespace PhotoProc

/-- Whitespace characters stripped by the Python `str.strip()` (ASCII subset
actually occurring in the data handled by the module). -/
def isPySpace (c : Char) : Bool :=
  c == ' ' || c == '\t' || c == '\n' || c == '\r' || c == Char.ofNat 11 || c == Char.ofNat 12

/-- List-level version of `str.strip()`. -/
def pyStripL (l : List Char) : List Char :=
  ((l.dropWhile isPySpace).reverse.dropWhile isPySpace).reverse

/-- Python `str.strip()` with no arguments: remove leading and trailing
whitespace. -/
def pyStrip (s : String) : String :=
  String.mk (pyStripL s.data)

/-- Split a character list at every character satisfying `p` (the
pieces between separators, in order; empty pieces kept). -/
def splitPredL (p : Char → Bool) : List Char → List (List Char)
  | [] => [[]]
  | c :: t =>
    let r := splitPredL p t
    if p c then [] :: r
    else
      match r with
      | h :: t2 => (c :: h) :: t2
      | [] => [[c]]

/-- Split a character list on a separator character (Python
`str.split(sep)` for a one-character separator). -/
def splitOnChar (sep : Char) (l : List Char) : List (List Char) :=
  splitPredL (fun c => c == sep) l

/-- Python `str.replace(pat, rep)` on character lists: left-to-right,
non-overlapping.  Only called with non-empty patterns. -/
def replaceL (pat rep : List Char) : List Char → List Char
  | [] => []
  | c :: t =>
    if h : pat ≠ [] ∧ pat.isPrefixOf (c :: t) then
      rep ++ replaceL pat rep ((c :: t).drop pat.length)
    else
      c :: replaceL pat rep t
termination_by l => l.length
decreasing_by
  · simp only [List.length_drop, List.length_cons]
    exact Nat.sub_lt (Nat.succ_pos _) (List.length_pos.mpr h.1)
  · simp

/-- Python `str.split()` with no arguments: split on whitespace runs,
dropping empty pieces. -/
def pySplitWs (s : String) : List String :=
  ((splitPredL isPySpace s.data).filter (fun t => t ≠ [])).map String.mk

/-- Numeric value of a list of decimal digit characters. -/
def digitsValNat (l : List Char) : Nat :=
  l.foldl (fun a c => a * 10 + (c.toNat - 48)) 0

/-- Python `int()` on a string of decimal digits. -/
def digitsToNat (s : String) : Nat :=
  digitsValNat s.data

/-- Rational value of a digit list read as an integer part. -/
def digitsValQ (l : List Char) : ℚ :=
  (digitsValNat l : ℚ)

/-- Modelled from the Python builtin `float(string)`: strips surrounding
whitespace and parses an optionally signed decimal literal
(`[+-]? digits [. digits]`); parse failure (the `ValueError` branch) is
`none`.  Scientific notation, infinities and NaN never occur in the
inputs this development evaluates. -/
def pyFloat (s : String) : Option ℚ :=
  let l := pyStripL s.data
  let (sign, l) : ℚ × List Char :=
    match l with
    | '-' :: t => (-1, t)
    | '+' :: t => (1, t)
    | _ => (1, l)
  let intPart := l.takeWhile Char.isDigit
  let rest := l.dropWhile Char.isDigit
  match rest with
  | [] => if intPart = [] then none else some (sign * digitsValQ intPart)
  | '.' :: frac =>
    if frac.all Char.isDigit && !(intPart = [] && frac = []) then
      some (sign * (digitsValQ intPart + digitsValQ frac / (10 ^ frac.length)))
    else none
  | _ => none

/-- Heterogeneous metadata values: numbers, strings, lists of numbers
(EXIF rational triples), and JSON null. -/
inductive JVal where
  | num : ℚ → JVal
  | str : String → JVal
  | nums : List ℚ → JVal
  | null : JVal
deriving DecidableEq

/-- Python truthiness of a metadata value. -/
def truthyJ : JVal → Bool
  | .num x => x ≠ 0
  | .str s => s ≠ ""
  | .nums l => l ≠ []
  | .null => false

/-- A metadata mapping (ExifTool JSON object, or an exifread tag table
projected to tag values): string keys to heterogeneous values. -/
abbrev Bag := List (String × JVal)

/-- Python dict lookup `d[k]` / `k in d`, as an assoc-list lookup. -/
def dictGet {α : Type} (l : List (String × α)) (k : String) : Option α :=
  (l.find? (fun p => p.1 == k)).map Prod.snd

/-- The Python builtin `float(v)` on a metadata value: numbers pass
through, strings are parsed, a list or null raises (`none`). -/
def pyFloatJ : JVal → Option ℚ
  | .num x => some x
  | .str s => pyFloat s
  | .nums _ => none
  | .null => none

/-- Source lines 269-271: a hemisphere reference negates the coordinate
exactly when it is the string "S" or "W" (line 270). -/
def refIsSW : Option JVal → Bool
  | some (.str s) => s == "S" || s == "W"
  | _ => false

/-- Hemisphere sign correction (lines 269-271). -/
def applyRef (r : Option JVal) (x : ℚ) : ℚ :=
  if refIsSW r then -x else x

/-- The single-quote character, removed from textual GPS values. -/
def squote : String := String.mk [Char.ofNat 39]

/-- Source lines 229-276, `convert_gps_to_decimal(gps_coords, gps_ref)`:
convert a GPS raw value (triple, string, or number) to signed decimal
degrees; any parse failure yields `none` (the `except` branch). -/
def convert_gps_to_decimal (v : JVal) (ref : Option JVal) : Option ℚ :=
  match v with
  | .nums [d, m, s] => some (applyRef ref (d + m / 60 + s / 3600))
  | .nums _ => none
  | .str s0 =>
    let s1 := String.mk (pyStripL
      (replaceL "\"".data [] (replaceL squote.data [] (replaceL "deg".data [] s0.data))))
    let parts := pySplitWs s1
    match parts with
    | [] =>
      match pyFloat s1 with
      | some x => some (applyRef ref x)
      | none => none
    | p0 :: restParts =>
      match pyFloat p0 with
      | none => none
      | some d =>
        let m? : Option ℚ :=
          match restParts with
          | [] => some 0
          | p1 :: _ => pyFloat p1
        match m? with
        | none => none
        | some m =>
          let s? : Option ℚ :=
            match restParts with
            | [] => some 0
            | [_] => some 0
            | _ :: p2 :: _ => pyFloat p2
          match s? with
          | none => none
          | some sec => some (applyRef ref (d + m / 60 + sec / 3600))
  | .num x => some (applyRef ref x)
  | .null => none

/-- Intermediate state of the GPS cascade: the Python locals
`latitude`, `longitude`. -/
abbrev GpsState := Option ℚ × Option ℚ

/-- One tuple of the `gps_keys` table (lines 300-309). -/
structure GpsKeySet where
  latKey : String
  latRefKey : Option String
  lonKey : Option String
  lonRefKey : Option String
deriving DecidableEq

/-- The `gps_keys` table of line 300-309, in source order. -/
def gps_keys : List GpsKeySet :=
  [⟨"EXIF:GPSLatitude", some "EXIF:GPSLatitudeRef", some "EXIF:GPSLongitude", some "EXIF:GPSLongitudeRef"⟩,
   ⟨"Composite:GPSLatitude", some "Composite:GPSLatitudeRef", some "Composite:GPSLongitude", some "Composite:GPSLongitudeRef"⟩,
   ⟨"XMP:GPSLatitude", some "XMP:GPSLatitudeRef", some "XMP:GPSLongitude", some "XMP:GPSLongitudeRef"⟩,
   ⟨"GPS:Latitude", some "GPS:LatitudeRef", some "GPS:Longitude", some "GPS:LongitudeRef"⟩,
   ⟨"EXIF:GPSLatitude", none, some "EXIF:GPSLongitude", none⟩,
   ⟨"Composite:GPSPosition", none, none, none⟩]

/-- Line 335-338: a reference direction is dropped when the raw value is
an inherently negative number. -/
def isNegNum : JVal → Bool
  | .num x => x < 0
  | _ => false

/-- Outcome of one iteration of the `for lat_key, ... in gps_keys` loop:
either `break` with the new state, or fall through to the next tuple
(possibly with partial assignments made before an exception). -/
inductive LoopRes where
  | brk : GpsState → LoopRes
  | cont : GpsState → LoopRes

/-- Source lines 312-350: processing of one `gps_keys` tuple.  The
`except` clause (line 348) maps to `cont` with whatever assignments had
already been made; `break` maps to `brk`.  Line 343-344 is
`convert_gps_to_decimal(lat, lat_ref) if lat_ref else float(lat)`: the
`float` path is taken whenever `lat_ref` is falsy — nulled because the
coordinate is an inherently negative number (lines 335-338), or a falsy
fetched reference value (JSON null, empty string, zero). -/
def tryGpsKeySet (bag : Bag) (ks : GpsKeySet) (s : GpsState) : LoopRes :=
  if ks.latKey == "Composite:GPSPosition" then
    match dictGet bag ks.latKey with
    | some (.str p) =>
      if (splitOnChar ',' p.data).length ≥ 2 then
        match splitOnChar ',' p.data with
        | [a, b] =>
          match pyFloat (String.mk a) with
          | none => .cont s
          | some la =>
            match pyFloat (String.mk b) with
            | none => .cont (some la, s.2)
            | some lo => .brk (some la, some lo)
        | _ => .cont s
      else .cont s
    | some _ => .cont s
    | none => .cont s
  else
    match ks.lonKey with
    | none => .cont s
    | some lonK =>
      match dictGet bag ks.latKey, dictGet bag lonK with
      | some lat, some lon =>
        let latRef0 : JVal :=
          match ks.latRefKey with
          | some rk => (dictGet bag rk).getD (.str "N")
          | none => .str "N"
        let lonRef0 : JVal :=
          match ks.lonRefKey with
          | some rk => (dictGet bag rk).getD (.str "E")
          | none => .str "E"
        let latRef : Option JVal :=
          if !isNegNum lat && truthyJ latRef0 then some latRef0 else none
        let lonRef : Option JVal :=
          if !isNegNum lon && truthyJ lonRef0 then some lonRef0 else none
        match latRef with
        | some r =>
          let la : Option ℚ := convert_gps_to_decimal lat (some r)
          (match lonRef with
           | some r2 => .brk (la, convert_gps_to_decimal lon (some r2))
           | none =>
             match pyFloatJ lon with
             | some lo => .brk (la, some lo)
             | none => .cont (la, s.2))
        | none =>
          match pyFloatJ lat with
          | some la =>
            (match lonRef with
             | some r2 => .brk (some la, convert_gps_to_decimal lon (some r2))
             | none =>
               match pyFloatJ lon with
               | some lo => .brk (some la, some lo)
               | none => .cont (some la, s.2))
          | none => .cont s
      | _, _ => .cont s

/-- The `for ... in gps_keys` loop of lines 312-350. -/
def tryGpsKeys (bag : Bag) : List GpsKeySet → GpsState → GpsState
  | [], s => s
  | k :: rest, s =>
    match tryGpsKeySet bag k s with
    | .brk s2 => s2
    | .cont s2 => tryGpsKeys bag rest s2

/-- Source lines 360-381: the exifread-tag GPS stage.  The reference
tags are read with `tags.get(key, "N").values`, so an absent reference
raises `AttributeError` on the default string and the stage `except`
leaves the state unchanged. -/
def stage2Exif (tags : Option Bag) (s : GpsState) : GpsState :=
  match tags with
  | none => s
  | some ts =>
    if ts.isEmpty then s
    else
      match dictGet ts "GPS GPSLatitude", dictGet ts "GPS GPSLongitude" with
      | some latV, some lonV =>
        (match dictGet ts "GPS GPSLatitudeRef" with
         | none => s
         | some latRef =>
           match dictGet ts "GPS GPSLongitudeRef" with
           | none => s
           | some lonRef =>
             (convert_gps_to_decimal latV (some latRef),
              convert_gps_to_decimal lonV (some lonRef)))
      | _, _ => s

/-- Source lines 296-437: the four-stage cascade producing the raw
`(latitude, longitude)` pair, before final validation.  `mdls` and
`direct` model the parsed numeric outputs of the macOS metadata-service
query (lines 384-410) and of the narrow ExifTool re-invocation (lines
413-437); `none` covers tool-absent, no-match and parse-failure, all of
which leave the state unchanged. -/
def gpsCascade (bag : Bag) (tags : Option Bag)
    (mdls : Option (ℚ × ℚ)) (direct : Option (ℚ × ℚ)) : GpsState :=
  let s0 : GpsState := (none, none)
  let s1 := if bag.isEmpty then s0 else tryGpsKeys bag gps_keys s0
  let s2 := if s1.1.isNone || s1.2.isNone then stage2Exif tags s1 else s1
  let s3 :=
    if s2.1.isNone || s2.2.isNone then
      match mdls with
      | some (a, b) => (some a, some b)
      | none => s2
    else s2
  let s4 :=
    if s3.1.isNone || s3.2.isNone then
      match direct with
      | some (a, b) => (some a, some b)
      | none => s3
    else s3
  s4

/-- Source lines 439-450: final validation.  A fully populated pair is
kept only when both coordinates are in range; otherwise, and when either
coordinate is missing, both are cleared. -/
def finalizeGps : GpsState → GpsState
  | (some a, some b) =>
    if -90 ≤ a ∧ a ≤ 90 ∧ -180 ≤ b ∧ b ≤ 180 then (some a, some b) else (none, none)
  | _ => (none, none)

/-- Source lines 278-450, `extract_gps_data`. -/
def extract_gps_data (bag : Bag) (tags : Option Bag)
    (mdls : Option (ℚ × ℚ)) (direct : Option (ℚ × ℚ)) : GpsState :=
  finalizeGps (gpsCascade bag tags mdls direct)

/-- The `orientation_fields` ExifTool key list, lines 468-475. -/
def orientation_fields : List String :=
  ["EXIF:GPSImgDirection", "XMP:GPSImgDirection", "GPS:GPSImgDirection",
   "GPS:ImgDirection", "EXIF:GPSDestBearing", "XMP:GPSDestBearing"]

/-- The `orientation_tags` exifread tag list, lines 488-491. -/
def orientation_tags : List String :=
  ["GPS GPSImgDirection", "GPS GPSDestBearing"]

/-- Lines 495-503: `tags[tag].values[0]` followed by `float(...)`.
Indexing a non-list value or an empty list, and a failed coercion, are
the caught `IndexError`/`ValueError`/`TypeError` branches (`none`). -/
def valuesHeadFloat : JVal → Option ℚ
  | .nums (a :: _) => some a
  | .nums [] => none
  | .str s =>
    match s.data with
    | c :: _ => pyFloat (String.mk [c])
    | [] => none
  | .num _ => none
  | .null => none

/-- Source lines 452-510, `extract_orientation_data(tags,
exiftool_metadata)`: first present coercible ExifTool bearing field,
else first coercible exifread bearing tag; no range check is applied. -/
def extract_orientation_data (tags : Option Bag) (bag : Bag) : Option ℚ :=
  let o1 : Option ℚ :=
    if bag.isEmpty then none
    else
      orientation_fields.findSome? fun f =>
        match dictGet bag f with
        | some v => if v ≠ JVal.null then pyFloatJ v else none
        | none => none
  match o1 with
  | some o => some o
  | none =>
    match tags with
    | some ts =>
      if ts.isEmpty then none
      else
        orientation_tags.findSome? fun t =>
          match dictGet ts t with
          | some v => valuesHeadFloat v
          | none => none
    | none => none

/-- The `description_fields` ExifTool key list of lines 537-549. -/
def description_fields : List String :=
  ["EXIF:ImageDescription", "XMP:Description", "XMP:Title", "XMP:Headline",
   "XMP:Caption", "XMP:CaptionWriter", "IPTC:Caption-Abstract", "IPTC:Headline",
   "QuickTime:Title", "QuickTime:Description", "Apple:Description"]

/-- Source lines 551-555: the HEIC ExifTool caption step.  The first
`description_fields` key present with a truthy value is stored, raw and
unmodified (`photo_data[caption] = exiftool_metadata[field]`, line 553). -/
def heicExiftoolCaption (bag : Bag) : Option JVal :=
  description_fields.findSome? fun f =>
    match dictGet bag f with
    | some v => if truthyJ v then some v else none
    | none => none

/-- Source lines 599-604: first debug-collected tag whose value is
truthy and strips to a non-empty string; the stripped value is stored. -/
def captionFromDescriptionTags (dtags : List (String × String)) : Option String :=
  dtags.findSome? fun tv =>
    if tv.2 ≠ "" && pyStrip tv.2 ≠ "" then some (pyStrip tv.2) else none

/-- The `caption_tags` list of lines 609-621. -/
def caption_tags : List String :=
  ["Image ImageDescription", "EXIF UserComment", "XMP:Description",
   "IPTC:Caption-Abstract", "EXIF:ImageDescription", "EXIF:UserComment",
   "EXIF:XPComment", "EXIF:XPSubject", "EXIF:XPTitle", "EXIF:Description",
   "EXIF:Subject"]

/-- Source lines 624-631: first `caption_tags` entry present in the
exifread table whose printed value strips to a non-empty string; the
stripped value is stored.  `tags` maps tag names to `str(tags[tag])`. -/
def captionFromExifTags (tags : List (String × String)) : Option String :=
  caption_tags.findSome? fun tag =>
    match dictGet tags tag with
    | some raw => if pyStrip raw ≠ "" then some (pyStrip raw) else none
    | none => none

/-- Match of the date regular expression
`(\d{4})[-_]?(\d{2})[-_]?(\d{2})` (line 737) anchored at the head of a
character list, returning the three captured digit groups.  The `[-_]?`
separators are matched greedily; for this pattern greediness is
equivalent to full backtracking, since a separator character can never
satisfy `\d`. -/
def dateMatchAt (l : List Char) : Option (String × String × String) :=
  let y := l.take 4
  if y.length = 4 && y.all Char.isDigit then
    let r0 := l.drop 4
    let r1 := match r0 with
      | c :: t => if c = '-' ∨ c = '_' then t else r0
      | [] => r0
    let mo := r1.take 2
    if mo.length = 2 && mo.all Char.isDigit then
      let r2 := r1.drop 2
      let r3 := match r2 with
        | c :: t => if c = '-' ∨ c = '_' then t else r2
        | [] => r2
      let d := r3.take 2
      if d.length = 2 && d.all Char.isDigit then
        some (String.mk y, String.mk mo, String.mk d)
      else none
    else none
  else none

/-- `re.search` semantics for the date pattern: the match at the
leftmost starting position wins. -/
def findDateMatchL : List Char → Option (String × String × String)
  | [] => none
  | l@(_ :: t) =>
    match dateMatchAt l with
    | some r => some r
    | none => findDateMatchL t

/-- `re.search` of the date pattern over the whole string, line 737. -/
def findDateMatch (s : String) : Option (String × String × String) :=
  findDateMatchL s.data

/-- Gregorian leap-year rule, as used by the Python `datetime`. -/
def isLeap (y : Nat) : Bool :=
  y % 4 = 0 && (y % 100 ≠ 0 || y % 400 = 0)

/-- Days in a month, as used by the Python `datetime`. -/
def daysInMonth (y m : Nat) : Nat :=
  if m = 2 then (if isLeap y then 29 else 28)
  else if m = 4 ∨ m = 6 ∨ m = 9 ∨ m = 11 then 30
  else 31

/-- Python `datetime(year, month, day)` constructor validity (line 742):
`MINYEAR = 1`, `MAXYEAR = 9999`, month in 1..12, day in range for the
month.  An invalid triple raises `ValueError` (the `except` branch). -/
def pyDatetimeValid (y m d : Nat) : Bool :=
  1 ≤ y && y ≤ 9999 && 1 ≤ m && m ≤ 12 && 1 ≤ d && d ≤ daysInMonth y m

/-- The same validity condition as a proposition (specification side). -/
def IsValidDate (y m d : Nat) : Prop :=
  1 ≤ y ∧ y ≤ 9999 ∧ 1 ≤ m ∧ m ≤ 12 ∧ 1 ≤ d ∧ d ≤ daysInMonth y m

instance (y m d : Nat) : Decidable (IsValidDate y m d) := by
  unfold IsValidDate; infer_instance

/-- Long month names, `strftime("%B")`. -/
def monthName : Nat → String
  | 1 => "January"
  | 2 => "February"
  | 3 => "March"
  | 4 => "April"
  | 5 => "May"
  | 6 => "June"
  | 7 => "July"
  | 8 => "August"
  | 9 => "September"
  | 10 => "October"
  | 11 => "November"
  | 12 => "December"
  | _ => ""

/-- `strftime("%d")`: the day zero-padded to two digits. -/
def pad2 (n : Nat) : String :=
  if n < 10 then "0" ++ toString n else toString n

/-- `strftime("%B %d, %Y")` of line 743 applied to a date, prefixed as
in line 746. -/
def dateCaption (y m d : Nat) : String :=
  "Photo taken on " ++ monthName m ++ " " ++ pad2 d ++ ", " ++ toString y

/-- `os.path.splitext(s)[0]`: drop the extension after the last dot,
unless every character before that dot is itself a dot. -/
def splitExtBase (s : String) : String :=
  let l := s.data
  let idx : Option Nat :=
    (List.range l.length).foldl
      (fun acc j => if l.get? j = some '.' then some j else acc) none
  match idx with
  | some k => if (l.take k).any (fun c => c ≠ '.') then String.mk (l.take k) else s
  | none => s

/-- Source lines 750-752 and 757-759: extension removed, a leading
`IMG_` stripped, underscores replaced by spaces. -/
def cleanFilename (fn : String) : String :=
  let base := (splitExtBase fn).data
  let noPre := if "IMG_".data.isPrefixOf base then base.drop 4 else base
  String.mk (noPre.map (fun c => if c = '_' then ' ' else c))

/-- Source lines 734-761: the filename fallback caption.  The leftmost
match of the date pattern is tried; if it forms a valid calendar date
the date caption is produced, otherwise (including when `datetime`
raises) the cleaned filename is used. -/
def filename_fallback_caption (fn : String) : String :=
  match findDateMatch fn with
  | some (ys, ms, ds) =>
    if pyDatetimeValid (digitsToNat ys) (digitsToNat ms) (digitsToNat ds) then
      dateCaption (digitsToNat ys) (digitsToNat ms) (digitsToNat ds)
    else cleanFilename fn
  | none => cleanFilename fn

/-- The claim-side reading of the fallback condition: the filename
contains, at some position, a date-pattern occurrence forming a valid
calendar date. -/
def claimContainsValidDate (fn : String) : Bool :=
  (List.range (fn.data.length + 1)).any fun i =>
    match dateMatchAt (fn.data.drop i) with
    | some (ys, ms, ds) => pyDatetimeValid (digitsToNat ys) (digitsToNat ms) (digitsToNat ds)
    | none => false

/-- `os.path.basename` on a POSIX path. -/
def basename (p : String) : String :=
  String.mk ((splitOnChar '/' p.data).getLastD p.data)

/-- Line 530: HEIC classification by extension, case-insensitively
(`photo_path.lower().endswith(".heic")`). -/
def isHeicPath (p : String) : Bool :=
  ".heic".data.isSuffixOf (p.data.map Char.toLower)

/-- The final per-photo record assembled by `extract_metadata_from_photo`
(lines 522-527 and subsequent assignments).  `caption` is a `JVal`
because the HEIC ExifTool step stores the raw metadata value. -/
structure PhotoRecord where
  path : String
  filename : String
  caption : JVal
  width : Option Nat
  height : Option Nat
  latitude : Option ℚ
  longitude : Option ℚ
  orientation : Option ℚ
  temp_file : Option String
deriving DecidableEq

/-- External-collaborator inputs of one `extract_metadata_from_photo`
call.  Each field models the parsed outcome of one narrow interface of
§6 of the specification:

* `exiftoolBag` - JSON object returned by
  `get_heic_metadata_with_exiftool` (lines 534 and 764; the tool is
  deterministic, so both invocations see the same object);
* `descriptionTags` - the pairs collected by `extract_all_metadata`
  (line 560);
* `imageDims` - `Image.open(...).size`; `none` means `open` raised;
* `heicSaveOk` / `tempName` - outcome and name of the temporary JPEG
  conversion (lines 571-576);
* `exifReadOk` / `exifCaptionTags` - success of the exifread pass of
  lines 595-596 and the `str(tags[tag])` view it yields;
* `exifGpsTags` - the `.values` view of the exifread pass of lines
  770-771; `none` means the read raised;
* `mdlsAvailable`, `mdlsDescription`, `mdlsOtherField`, `sipsAvailable`,
  `sipsDescription`, `aaeDescription` - parsed outputs of the OS
  metadata-service queries and the sidecar read (lines 644-729), with
  `none` covering absence, `(null)` and pattern mismatch;
* `mdlsGps`, `directGps` - parsed numeric outputs of the GPS queries of
  lines 384-410 and 413-437. -/
structure Env where
  exiftoolBag : Bag
  descriptionTags : List (String × String)
  imageDims : Option (Nat × Nat)
  heicSaveOk : Bool
  tempName : String
  exifReadOk : Bool
  exifCaptionTags : List (String × String)
  exifGpsTags : Option Bag
  mdlsAvailable : Bool
  mdlsDescription : Option String
  mdlsOtherField : Option String
  sipsAvailable : Bool
  sipsDescription : Option String
  aaeDescription : Option String
  mdlsGps : Option (ℚ × ℚ)
  directGps : Option (ℚ × ℚ)

/-- Line 533-555: the HEIC-only first caption step. -/
def heicCapFirst (env : Env) (isHeic : Bool) : Option JVal :=
  if isHeic then heicExiftoolCaption env.exiftoolBag else none

/-- Source lines 557-729: the remaining caption cascade, run only when
the first step produced nothing.  For a non-HEIC file whose image fails
to open, the `Image.open` of line 589 raises and control jumps to the
outer handler of line 731, skipping every remaining step (`abort`).
For HEIC, the open failure is caught locally (line 580). -/
def restCaption (env : Env) (isHeic : Bool) : Option JVal :=
  let abort := !isHeic && env.imageDims.isNone
  let c1 : Option JVal :=
    if abort then none
    else if isHeic then (captionFromDescriptionTags env.descriptionTags).map JVal.str
    else if env.exifReadOk then
      match captionFromDescriptionTags env.descriptionTags with
      | some c => some (JVal.str c)
      | none => (captionFromExifTags env.exifCaptionTags).map JVal.str
    else none
  let c2 :=
    if c1.isNone && !abort && env.mdlsAvailable then
      match env.mdlsDescription with
      | some d => some (JVal.str d)
      | none => env.mdlsOtherField.map JVal.str
    else c1
  let c3 :=
    if c2.isNone && !abort && env.sipsAvailable then
      (env.sipsDescription.map JVal.str)
    else c2
  let c4 :=
    if c3.isNone && !abort then
      (env.aaeDescription.map JVal.str)
    else c3
  c4

/-- The caption cascade before the filename fallback: first the HEIC
ExifTool step, then (only when it produced nothing) everything inside
the `if not photo_data[caption]` block of line 558. -/
def cascadeCaption (env : Env) (isHeic : Bool) : Option JVal :=
  match heicCapFirst env isHeic with
  | some c => some c
  | none => restCaption env isHeic

/-- Lines 734-761 combined with the cascade: a falsy cascade result is
replaced by the filename fallback (`if not photo_data[caption]`, line 735). -/
def finalCaption (env : Env) (path : String) : JVal :=
  match cascadeCaption env (isHeicPath path) with
  | some c =>
    if truthyJ c then c else JVal.str (filename_fallback_caption (basename path))
  | none => JVal.str (filename_fallback_caption (basename path))

/-- Lines 562-591: the image is opened for dimensions only inside the
`if not photo_data[caption]` block, i.e. only when the HEIC ExifTool
caption step found nothing. -/
def recordDims (env : Env) (isHeic : Bool) : Option (Nat × Nat) :=
  if (heicCapFirst env isHeic).isSome then none else env.imageDims

/-- Lines 571-576: the temporary JPEG is produced only for a HEIC file
that was opened inside that same block and whose conversion succeeded. -/
def recordTemp (env : Env) (isHeic : Bool) : Option String :=
  if (heicCapFirst env isHeic).isSome then none
  else if isHeic && env.imageDims.isSome && env.heicSaveOk then some env.tempName
  else none

/-- Lines 767-773: the exifread table passed to the GPS and orientation
resolvers; always `None` for HEIC. -/
def gpsTags (env : Env) (isHeic : Bool) : Option Bag :=
  if isHeic then none else env.exifGpsTags

/-- Lines 779-782: coordinates are stored on the record only when both
are present. -/
def gpsStore (g : GpsState) : GpsState :=
  match g with
  | (some a, some b) => (some a, some b)
  | _ => (none, none)

/-- Source lines 512-792, `extract_metadata_from_photo`, over the
external-collaborator inputs `env`. -/
def extract_metadata_from_photo (env : Env) (path : String) : PhotoRecord :=
  let isHeic := isHeicPath path
  let g := extract_gps_data env.exiftoolBag (gpsTags env isHeic) env.mdlsGps env.directGps
  { path := path
    filename := basename path
    caption := finalCaption env path
    width := (recordDims env isHeic).map Prod.fst
    height := (recordDims env isHeic).map Prod.snd
    latitude := (gpsStore g).1
    longitude := (gpsStore g).2
    orientation := extract_orientation_data (gpsTags env isHeic) env.exiftoolBag
    temp_file := recordTemp env isHeic }

/-- Source lines 794-810, `extract_metadata_from_photos`: a plain loop
with no per-photo exception handler.  The per-photo call is passed in
as `process`, an `Except`-valued function, because
`extract_metadata_from_photo` can raise before any of its internal
handlers is in scope (for example `os.path.basename` on a non-string
path); any such exception propagates out of the loop. -/
def extract_metadata_from_photos (process : String → Except String PhotoRecord) :
    List String → Except String (List PhotoRecord)
  | [] => .ok []
  | p :: ps =>
    match process p with
    | .error e => .error e
    | .ok r =>
      match extract_metadata_from_photos process ps with
      | .error e => .error e
      | .ok rs => .ok (r :: rs)

/-- One iteration of the cleanup loop (lines 822-827): the record must
be truthy, must have a truthy `temp_file`, and the path must exist
(`os.path.exists`, line 823); only then is `os.unlink` called.  The
state is `(existing paths, unlink attempts so far)`.  `uf t = true`
means the `os.unlink(t)` call raises: the exception is caught and
logged (lines 824-827) and the file remains on the filesystem;
`uf t = false` means the deletion succeeds and the path is removed.
Every `os.unlink` call is recorded as an attempt, failed or not. -/
def cleanupStep (uf : String → Bool) (st : List String × List String)
    (pd : Option PhotoRecord) : List String × List String :=
  match pd with
  | none => st
  | some r =>
    match r.temp_file with
    | none => st
    | some t =>
      if t = "" then st
      else if t ∈ st.1 then
        (if uf t then st.1 else st.1.filter (fun x => x ≠ t), st.2 ++ [t])
      else st

/-- Source lines 812-827, `cleanup_temp_files` over an explicit
filesystem: returns the remaining filesystem and the list of unlink
attempts, with `uf` saying which `os.unlink` calls raise (caught and
logged, never propagated).  A `None` argument returns immediately
(lines 819-820). -/
def cleanup_temp_files (uf : String → Bool) (fs : List String)
    (records : Option (List (Option PhotoRecord))) : List String × List String :=
  match records with
  | none => (fs, [])
  | some rs => rs.foldl (cleanupStep uf) (fs, [])

/-- An environment in which every external collaborator yields nothing:
no ExifTool metadata, no OS-service answers, unopenable image, no
sidecar.  Used as the base for the concrete scenarios below. -/
def emptyEnv : Env :=
  { exiftoolBag := [], descriptionTags := [], imageDims := none, heicSaveOk := false,
    tempName := "", exifReadOk := false, exifCaptionTags := [], exifGpsTags := none,
    mdlsAvailable := false, mdlsDescription := none, mdlsOtherField := none,
    sipsAvailable := false, sipsDescription := none, aaeDescription := none,
    mdlsGps := none, directGps := none }

/-- Membership in the underlying association list follows from a
successful dict lookup. -/
theorem dictGet_mem {α : Type} {l : List (String × α)} {k : String} {v : α}
    (h : dictGet l k = some v) : (k, v) ∈ l := by
  unfold dictGet at h
  cases hf : l.find? (fun p => p.1 == k) with
  | none => rw [hf] at h; simp at h
  | some p =>
    rw [hf] at h
    simp only [Option.map_some', Option.some.injEq] at h
    have hmem := List.mem_of_find?_eq_some hf
    have hpred := List.find?_some hf
    have hk : p.1 = k := by simpa using hpred
    have : p = (k, v) := by
      obtain ⟨p1, p2⟩ := p
      simp only at hk h
      rw [hk, h]
    rwa [this] at hmem

/-- The final validation step yields either full absence or a fully
populated in-range pair, and `gpsStore` preserves that shape. -/
theorem gpsStore_finalize (g : GpsState) :
    gpsStore (finalizeGps g) = (none, none) ∨
      ∃ a b, gpsStore (finalizeGps g) = (some a, some b) ∧
        -90 ≤ a ∧ a ≤ 90 ∧ -180 ≤ b ∧ b ≤ 180 := by
  obtain ⟨x, y⟩ := g
  cases x with
  | none => left; cases y <;> rfl
  | some a =>
    cases y with
    | none => left; rfl
    | some b =>
      by_cases h : -90 ≤ a ∧ a ≤ 90 ∧ -180 ≤ b ∧ b ≤ 180
      · right
        refine ⟨a, b, ?_, h.1, h.2.1, h.2.2.1, h.2.2.2⟩
        simp [finalizeGps, gpsStore, if_pos h]
      · left
        simp [finalizeGps, gpsStore, if_neg h]

/-- C1: for every photo processed by `extract_metadata_from_photo`, the
latitude and longitude of the returned record are either both present or
both absent, and when present satisfy -90 ≤ latitude ≤ 90 and
-180 ≤ longitude ≤ 180; an out-of-range pair is never stored. -/
theorem c1_record_gps_invariant (env : Env) (path : String) :
    ((extract_metadata_from_photo env path).latitude = none ∧
      (extract_metadata_from_photo env path).longitude = none) ∨
    ∃ a b, (extract_metadata_from_photo env path).latitude = some a ∧
      (extract_metadata_from_photo env path).longitude = some b ∧
      -90 ≤ a ∧ a ≤ 90 ∧ -180 ≤ b ∧ b ≤ 180 := by
  have hl : (extract_metadata_from_photo env path).latitude =
      (gpsStore (finalizeGps (gpsCascade env.exiftoolBag
        (gpsTags env (isHeicPath path)) env.mdlsGps env.directGps))).1 := rfl
  have hr : (extract_metadata_from_photo env path).longitude =
      (gpsStore (finalizeGps (gpsCascade env.exiftoolBag
        (gpsTags env (isHeicPath path)) env.mdlsGps env.directGps))).2 := rfl
  rw [hl, hr]
  rcases gpsStore_finalize (gpsCascade env.exiftoolBag
      (gpsTags env (isHeicPath path)) env.mdlsGps env.directGps) with h | ⟨a, b, h, h1, h2, h3, h4⟩
  · left; rw [h]; exact ⟨rfl, rfl⟩
  · right; exact ⟨a, b, by rw [h], by rw [h], h1, h2, h3, h4⟩

/-- The ExifTool metadata bag used in the GPS-cascade scenarios: an
out-of-range coordinate pair under the standard embedded keys. -/
def bagC2 : Bag := [("EXIF:GPSLatitude", .num 100), ("EXIF:GPSLongitude", .num 200)]

/-- C2 counterexample: the first ExifTool key-pair stage yields the
out-of-range pair (100, 200), so the later OS-service stage — which
would yield the valid pair (10, 20) — is never consulted, and the
resolver returns absence rather than the valid pair of the later stage. -/
theorem c2_counterexample :
    extract_gps_data bagC2 none (some (10, 20)) none = (none, none) ∧
    (-90 ≤ (10 : ℚ) ∧ (10 : ℚ) ≤ 90 ∧ -180 ≤ (20 : ℚ) ∧ (20 : ℚ) ≤ 180) ∧
    ((none, none) : GpsState) ≠ (some (10 : ℚ), some (20 : ℚ)) :=
  ⟨by decide, by norm_num, by decide⟩

/-- C2 (amended): in the GPS cascade the first source yielding both
coordinates wins regardless of range; range validation is applied once,
at the end, so when an earlier source produced an out-of-range pair the
later sources are not consulted and the resolver returns absence. -/
theorem c2_first_pair_wins (bag : Bag) (tags : Option Bag)
    (mdls direct : Option (ℚ × ℚ)) (a b : ℚ)
    (hbag : bag ≠ [])
    (h : tryGpsKeys bag gps_keys (none, none) = (some a, some b)) :
    extract_gps_data bag tags mdls direct = finalizeGps (some a, some b) := by
  have hbag2 : bag.isEmpty = false := by
    cases bag with
    | nil => exact absurd rfl hbag
    | cons x xs => rfl
  unfold extract_gps_data gpsCascade
  rw [hbag2]
  simp only [Bool.false_eq_true, if_false, h]
  rfl

/-- Witness for `c2_first_pair_wins` at the counterexample input. -/
theorem c2_first_pair_wins_witness :
    extract_gps_data bagC2 none (some (10, 20)) none =
      finalizeGps (some 100, some 200) :=
  c2_first_pair_wins bagC2 none (some (10, 20)) none 100 200 (by decide) (by decide)

/-- C3: on a 3-element [degrees, minutes, seconds] list,
`convert_gps_to_decimal` returns deg + min/60 + sec/3600, negated
exactly when the reference is "S" or "W"; for non-negative non-zero
triples the result is negative with "S"/"W" and positive with
"N"/"E". -/
theorem c3_convert_gps_triple (d m s : ℚ) (ref : String) :
    convert_gps_to_decimal (JVal.nums [d, m, s]) (some (JVal.str ref)) =
      some (if ref = "S" ∨ ref = "W" then -(d + m / 60 + s / 3600)
            else d + m / 60 + s / 3600) ∧
    (0 ≤ d → 0 ≤ m → 0 ≤ s → 0 < d + m / 60 + s / 3600 →
      ((ref = "S" ∨ ref = "W") →
        convert_gps_to_decimal (JVal.nums [d, m, s]) (some (JVal.str ref)) =
          some (-(d + m / 60 + s / 3600)) ∧ -(d + m / 60 + s / 3600) < 0) ∧
      ((ref = "N" ∨ ref = "E") →
        convert_gps_to_decimal (JVal.nums [d, m, s]) (some (JVal.str ref)) =
          some (d + m / 60 + s / 3600) ∧ 0 < d + m / 60 + s / 3600)) := by
  have hconv : convert_gps_to_decimal (JVal.nums [d, m, s]) (some (JVal.str ref)) =
      some (applyRef (some (JVal.str ref)) (d + m / 60 + s / 3600)) := rfl
  have hsw : refIsSW (some (JVal.str ref)) = true ↔ (ref = "S" ∨ ref = "W") := by
    simp [refIsSW]
  constructor
  · rw [hconv]
    unfold applyRef
    by_cases h : ref = "S" ∨ ref = "W"
    · rw [if_pos (hsw.mpr h), if_pos h]
    · rw [if_neg (fun hb => h (hsw.mp hb)), if_neg h]
  · intro _ _ _ hpos
    constructor
    · intro h
      refine ⟨?_, by linarith⟩
      rw [hconv]
      unfold applyRef
      rw [if_pos (hsw.mpr h)]
    · intro h
      have hnot : ¬(ref = "S" ∨ ref = "W") := by
        rcases h with rfl | rfl <;> decide
      refine ⟨?_, hpos⟩
      rw [hconv]
      unfold applyRef
      rw [if_neg (fun hb => hnot (hsw.mp hb))]

/-- Witness for `c3_convert_gps_triple`: 51 deg 30 min 15 sec S converts to a
negative decimal. -/
theorem c3_convert_gps_triple_witness :
    convert_gps_to_decimal (JVal.nums [51, 30, 15]) (some (JVal.str "S")) =
      some (-((51 : ℚ) + 30 / 60 + 15 / 3600)) ∧
    -((51 : ℚ) + 30 / 60 + 15 / 3600) < 0 :=
  ((c3_convert_gps_triple 51 30 15 "S").2 (by norm_num) (by norm_num) (by norm_num)
    (by norm_num)).1 (Or.inl rfl)

/-- The computational and propositional date-validity conditions
agree. -/
theorem pyDatetimeValid_iff (y m d : Nat) :
    pyDatetimeValid y m d = true ↔ IsValidDate y m d := by
  simp [pyDatetimeValid, IsValidDate, Bool.and_eq_true, decide_eq_true_iff, and_assoc]

/-- C4 counterexample: the filename `9999_99_99_2024_03_15.jpg`
contains the valid date pattern `2024_03_15`, but the leftmost match of
the regular expression is `9999_99_99`, whose `datetime` construction
fails, so the code falls back to the cleaned filename instead of the
date caption the claim requires. -/
theorem c4_counterexample :
    claimContainsValidDate "9999_99_99_2024_03_15.jpg" = true ∧
    (extract_metadata_from_photo emptyEnv "9999_99_99_2024_03_15.jpg").caption =
      JVal.str "9999 99 99 2024 03 15" ∧
    filename_fallback_caption "9999_99_99_2024_03_15.jpg" = "9999 99 99 2024 03 15" ∧
    ("9999 99 99 2024 03 15" : String) ≠ "Photo taken on March 15, 2024" :=
  ⟨rfl, rfl, rfl, by decide⟩

/-- C4 (amended): when no cascade step produced a caption, the filename
fallback considers only the leftmost occurrence of the date pattern: if
that occurrence forms a valid calendar date the caption is
"Photo taken on <Month> <Day>, <Year>" with the long month name,
otherwise (no occurrence, or leftmost occurrence invalid — even if a
later occurrence would be valid) the caption is the filename with
extension removed, a leading `IMG_` stripped, and underscores replaced
by spaces; in particular `IMG_2024-03-15_Paris.heic` yields
"Photo taken on March 15, 2024" and `Grand_Canyon_Sunset.jpg` yields
"Grand Canyon Sunset". -/
theorem c4_fallback_caption :
    (∀ fn ys ms ds, findDateMatch fn = some (ys, ms, ds) →
        IsValidDate (digitsToNat ys) (digitsToNat ms) (digitsToNat ds) →
        filename_fallback_caption fn =
          dateCaption (digitsToNat ys) (digitsToNat ms) (digitsToNat ds)) ∧
    (∀ fn, (∀ ys ms ds, findDateMatch fn = some (ys, ms, ds) →
          ¬ IsValidDate (digitsToNat ys) (digitsToNat ms) (digitsToNat ds)) →
        filename_fallback_caption fn = cleanFilename fn) ∧
    (extract_metadata_from_photo emptyEnv "IMG_2024-03-15_Paris.heic").caption =
      JVal.str "Photo taken on March 15, 2024" ∧
    (extract_metadata_from_photo emptyEnv "Grand_Canyon_Sunset.jpg").caption =
      JVal.str "Grand Canyon Sunset" := by
  refine ⟨?_, ?_, rfl, rfl⟩
  · intro fn ys ms ds h hv
    simp only [filename_fallback_caption, h]
    rw [if_pos ((pyDatetimeValid_iff _ _ _).mpr hv)]
  · intro fn h
    cases hm : findDateMatch fn with
    | none => simp only [filename_fallback_caption, hm]
    | some r =>
      obtain ⟨ys, ms, ds⟩ := r
      simp only [filename_fallback_caption, hm]
      rw [if_neg (fun hb => (h ys ms ds hm) ((pyDatetimeValid_iff _ _ _).mp hb))]

/-- Witness for `c4_fallback_caption` at a compact-date filename. -/
theorem c4_fallback_caption_witness :
    filename_fallback_caption "IMG_20240315.jpg" = dateCaption 2024 3 15 :=
  c4_fallback_caption.1 "IMG_20240315.jpg" "2024" "03" "15" (by decide) (by decide)

/-- Environment for the untrimmed-HEIC-caption scenario. -/
def envC5 : Env :=
  { emptyEnv with exiftoolBag := [("EXIF:ImageDescription", JVal.str " Family dinner ")] }

/-- C5 counterexample: a HEIC photo whose ExifTool description field is
` Family dinner ` gets exactly that value stored as its record caption,
with the surrounding whitespace retained, so the caption is not the
stripped raw value. -/
theorem c5_counterexample :
    (extract_metadata_from_photo envC5 "dinner.heic").caption =
      JVal.str " Family dinner " ∧
    pyStrip " Family dinner " = "Family dinner" ∧
    (" Family dinner " : String) ≠ "Family dinner" :=
  ⟨rfl, rfl, by decide⟩

/-- C5 (amended): the debug-collected-tag step and the fixed
embedded-tag step store the raw source value stripped of surrounding
whitespace, but the HEIC external-process description-field step stores
the raw metadata value unmodified, without trimming. -/
theorem c5_caption_trimming :
    (∀ dtags v, captionFromDescriptionTags dtags = some v →
        ∃ t raw, (t, raw) ∈ dtags ∧ v = pyStrip raw) ∧
    (∀ tags v, captionFromExifTags tags = some v →
        ∃ t raw, (t, raw) ∈ tags ∧ v = pyStrip raw) ∧
    (∀ bag v, heicExiftoolCaption bag = some v → ∃ f, (f, v) ∈ bag) := by
  refine ⟨?_, ?_, ?_⟩
  · intro dtags v h
    obtain ⟨tv, htv, hf⟩ := List.exists_of_findSome?_eq_some h
    by_cases hc : tv.2 ≠ "" && pyStrip tv.2 ≠ ""
    · rw [if_pos hc] at hf
      obtain ⟨t, raw⟩ := tv
      exact ⟨t, raw, htv, (Option.some.injEq _ _ ▸ hf).symm⟩
    · rw [if_neg hc] at hf
      exact absurd hf (by simp)
  · intro tags v h
    obtain ⟨tag, _, hf⟩ := List.exists_of_findSome?_eq_some h
    cases hdg : dictGet tags tag with
    | none => simp only [hdg] at hf; exact Option.noConfusion hf
    | some raw =>
      simp only [hdg] at hf
      by_cases hc : pyStrip raw ≠ ""
      · rw [if_pos hc] at hf
        have hv : pyStrip raw = v := Option.some.inj hf
        exact ⟨tag, raw, dictGet_mem hdg, hv.symm⟩
      · rw [if_neg hc] at hf
        exact absurd hf (by simp)
  · intro bag v h
    obtain ⟨f, _, hf⟩ := List.exists_of_findSome?_eq_some h
    cases hdg : dictGet bag f with
    | none => simp only [hdg] at hf; exact Option.noConfusion hf
    | some w =>
      simp only [hdg] at hf
      by_cases hc : truthyJ w = true
      · rw [if_pos hc] at hf
        have hv : w = v := Option.some.inj hf
        exact ⟨f, hv ▸ dictGet_mem hdg⟩
      · rw [if_neg hc] at hf
        exact absurd hf (by simp)

/-- Witness for `c5_caption_trimming`: a debug-collected tag value with
surrounding blanks is stored stripped. -/
theorem c5_caption_trimming_witness :
    ∃ t raw, (t, raw) ∈ [("Image ImageDescription", "  Family dinner  ")] ∧
      "Family dinner" = pyStrip raw :=
  c5_caption_trimming.1 [("Image ImageDescription", "  Family dinner  ")]
    "Family dinner" (by decide)

/-- A per-photo processor that raises on one specific path, as the real
`extract_metadata_from_photo` does on a degenerate path argument
(`os.path.basename` raises `TypeError` before any handler is active). -/
def procC6 : String → Except String PhotoRecord := fun p =>
  if p = "corrupt" then .error "TypeError" else .ok (extract_metadata_from_photo emptyEnv p)

/-- C6 counterexample: an exception raised while processing the second
photo propagates out of `extract_metadata_from_photos`; the batch
aborts with the error instead of completing with a partial record. -/
theorem c6_counterexample :
    extract_metadata_from_photos procC6 ["a.jpg", "corrupt", "b.jpg"] =
      .error "TypeError" := rfl

/-- C6 (amended): `extract_metadata_from_photos` has no per-photo
exception handler: when every per-photo call succeeds the batch returns
one record per path, in input order; when a per-photo call raises, the
exception propagates out and the batch aborts, with no partial record
for the failing photo and no processing of the remaining photos. -/
theorem c6_no_per_photo_handler :
    (∀ (process : String → Except String PhotoRecord) (paths : List String),
        (∀ p ∈ paths, ∃ r, process p = .ok r) →
        ∃ rs, extract_metadata_from_photos process paths = .ok rs ∧
          List.Forall₂ (fun p r => process p = Except.ok r) paths rs) ∧
    (∀ (process : String → Except String PhotoRecord) (ps qs : List String) (p e : String),
        (∀ q ∈ ps, ∃ r, process q = .ok r) → process p = .error e →
        extract_metadata_from_photos process (ps ++ p :: qs) = .error e) := by
  constructor
  · intro process paths h
    induction paths with
    | nil => exact ⟨[], rfl, List.Forall₂.nil⟩
    | cons p ps ih =>
      obtain ⟨r, hr⟩ := h p (List.mem_cons_self p ps)
      obtain ⟨rs, hrs, hfa⟩ := ih (fun q hq => h q (List.mem_cons_of_mem p hq))
      refine ⟨r :: rs, ?_, List.Forall₂.cons hr hfa⟩
      simp only [extract_metadata_from_photos, hr, hrs]
  · intro process ps qs p e h hp
    induction ps with
    | nil => simp only [List.nil_append, extract_metadata_from_photos, hp]
    | cons q ps ih =>
      obtain ⟨r, hr⟩ := h q (List.mem_cons_self q ps)
      have htail := ih (fun x hx => h x (List.mem_cons_of_mem q hx))
      simp only [List.cons_append, extract_metadata_from_photos, hr, List.append_eq, htail]

/-- Witness for `c6_no_per_photo_handler` at a concrete failing batch. -/
theorem c6_no_per_photo_handler_witness :
    extract_metadata_from_photos procC6 (["x.jpg"] ++ "corrupt" :: []) =
      .error "TypeError" :=
  c6_no_per_photo_handler.2 procC6 ["x.jpg"] [] "corrupt" "TypeError"
    (fun q hq => by
      have : q = "x.jpg" := by simpa using hq
      exact this ▸ ⟨extract_metadata_from_photo emptyEnv "x.jpg", rfl⟩)
    rfl

/-- Environment of the dimension-skipping scenario: a HEIC photo whose
ExifTool metadata carries a description and whose image opens fine. -/
def envC7 : Env :=
  { emptyEnv with
    exiftoolBag := [("EXIF:ImageDescription", JVal.str "Sunset over the bay")],
    imageDims := some (4032, 3024), heicSaveOk := true, tempName := "/tmp/conv.jpg" }

/-- The same environment with the description removed. -/
def envC7noCap : Env := { envC7 with exiftoolBag := [] }

/-- C7 (code bug): a HEIC photo whose caption is found by the first
(ExifTool description-field) cascade step never reaches the dimension
block — it is nested under `if not photo_data[caption]` — so its
width, height and temporary converted copy stay absent even though the
image opens; with no such caption the very same environment yields the
dimensions and the temporary copy. -/
theorem c7_heic_caption_skips_dims :
    (extract_metadata_from_photo envC7 "IMG_1234.heic").caption =
      JVal.str "Sunset over the bay" ∧
    (extract_metadata_from_photo envC7 "IMG_1234.heic").width = none ∧
    (extract_metadata_from_photo envC7 "IMG_1234.heic").height = none ∧
    (extract_metadata_from_photo envC7 "IMG_1234.heic").temp_file = none ∧
    (extract_metadata_from_photo envC7noCap "IMG_1234.heic").width = some 4032 ∧
    (extract_metadata_from_photo envC7noCap "IMG_1234.heic").height = some 3024 ∧
    (extract_metadata_from_photo envC7noCap "IMG_1234.heic").temp_file =
      some "/tmp/conv.jpg" :=
  ⟨rfl, rfl, rfl, rfl, rfl, rfl, rfl⟩

/-- Every cleanup step only removes paths from the filesystem. -/
theorem cleanupStep_subset (uf : String → Bool) (st : List String × List String)
    (pd : Option PhotoRecord) : (cleanupStep uf st pd).1 ⊆ st.1 := by
  cases pd with
  | none => exact fun a ha => ha
  | some r =>
    cases ht : r.temp_file with
    | none => simp only [cleanupStep, ht]; exact fun a ha => ha
    | some t =>
      simp only [cleanupStep, ht]
      by_cases h0 : t = ""
      · rw [if_pos h0]; exact fun a ha => ha
      · rw [if_neg h0]
        by_cases h1 : t ∈ st.1
        · rw [if_pos h1]
          by_cases huf : uf t = true
          · rw [if_pos huf]; exact fun a ha => ha
          · rw [if_neg huf]; exact List.filter_subset' _
        · rw [if_neg h1]; exact fun a ha => ha

/-- The cleanup fold only removes paths from the filesystem. -/
theorem cleanupFold_subset (uf : String → Bool) (rs : List (Option PhotoRecord)) :
    ∀ st : List String × List String, (rs.foldl (cleanupStep uf) st).1 ⊆ st.1 := by
  induction rs with
  | nil => intro st; exact fun a ha => ha
  | cons pd rest ih =>
    intro st
    exact (ih (cleanupStep uf st pd)).trans (cleanupStep_subset uf st pd)

/-- After the cleanup fold, a truthy temporary path whose unlink
succeeds is no longer on the filesystem. -/
theorem cleanupFold_removes (uf : String → Bool) (rs : List (Option PhotoRecord)) :
    ∀ (st : List String × List String) (r : PhotoRecord) (t : String),
      some r ∈ rs → r.temp_file = some t → t ≠ "" → uf t = false →
      t ∉ (rs.foldl (cleanupStep uf) st).1 := by
  induction rs with
  | nil => intro st r t hmem; exact absurd hmem (List.not_mem_nil _)
  | cons pd rest ih =>
    intro st r t hmem ht htne huf
    rcases List.mem_cons.mp hmem with heq | htail
    · subst heq
      have hstep : t ∉ (cleanupStep uf st (some r)).1 := by
        simp only [cleanupStep, ht]
        rw [if_neg htne]
        by_cases h1 : t ∈ st.1
        · rw [if_pos h1, if_neg (by simp [huf])]
          simp only [List.mem_filter, decide_not]
          rintro ⟨-, hne⟩
          simp at hne
        · rw [if_neg h1]; exact h1
      intro hfin
      exact hstep (cleanupFold_subset uf rest (cleanupStep uf st (some r)) hfin)
    · exact ih (cleanupStep uf st pd) r t htail ht htne huf

/-- A cleanup step leaves the filesystem component unchanged when no
successfully deletable temporary path of its record is still present:
skip branches return the state as is, and a failing unlink keeps the
file. -/
theorem cleanupStep_fs_stable (uf : String → Bool) (st : List String × List String)
    (pd : Option PhotoRecord)
    (h : ∀ (r : PhotoRecord) (t : String), pd = some r → r.temp_file = some t →
      t ≠ "" → uf t = false → t ∉ st.1) :
    (cleanupStep uf st pd).1 = st.1 := by
  cases pd with
  | none => rfl
  | some r =>
    cases ht : r.temp_file with
    | none => simp only [cleanupStep, ht]
    | some t =>
      simp only [cleanupStep, ht]
      by_cases h0 : t = ""
      · rw [if_pos h0]
      · rw [if_neg h0]
        by_cases h1 : t ∈ st.1
        · rw [if_pos h1]
          cases huf : uf t with
          | false => exact absurd h1 (h r t rfl ht h0 huf)
          | true => simp [huf]
        · rw [if_neg h1]

/-- The cleanup fold leaves the filesystem unchanged when every
record temporary path with a succeeding unlink is already absent. -/
theorem cleanupFold_fs_stable (uf : String → Bool) (rs : List (Option PhotoRecord)) :
    ∀ st : List String × List String,
      (∀ (r : PhotoRecord) (t : String), some r ∈ rs → r.temp_file = some t →
        t ≠ "" → uf t = false → t ∉ st.1) →
      (rs.foldl (cleanupStep uf) st).1 = st.1 := by
  induction rs with
  | nil => intro st _; rfl
  | cons pd rest ih =>
    intro st h
    have hstep : (cleanupStep uf st pd).1 = st.1 :=
      cleanupStep_fs_stable uf st pd
        (fun r t hpd => h r t (by rw [hpd]; exact List.mem_cons_self _ _))
    rw [List.foldl_cons,
      ih (cleanupStep uf st pd) (fun r t hmem ht htne huf => by
        rw [hstep]; exact h r t (List.mem_cons_of_mem pd hmem) ht htne huf)]
    exact hstep

/-- Every unlink attempt a cleanup step adds is of a path whose unlink
fails, provided that held for the attempts already made and that any
still-present truthy temporary of its record has a failing unlink. -/
theorem cleanupStep_attempts (uf : String → Bool) (st : List String × List String)
    (pd : Option PhotoRecord)
    (h1 : ∀ (r : PhotoRecord) (t : String), pd = some r → r.temp_file = some t →
      t ≠ "" → t ∈ st.1 → uf t = true)
    (h2 : ∀ t ∈ st.2, uf t = true) :
    ∀ t ∈ (cleanupStep uf st pd).2, uf t = true := by
  cases pd with
  | none => exact h2
  | some r =>
    cases ht : r.temp_file with
    | none => simp only [cleanupStep, ht]; exact h2
    | some t0 =>
      simp only [cleanupStep, ht]
      by_cases h0 : t0 = ""
      · rw [if_pos h0]; exact h2
      · rw [if_neg h0]
        by_cases hm : t0 ∈ st.1
        · rw [if_pos hm]
          intro t htm
          rcases List.mem_append.mp htm with hl | hr
          · exact h2 t hl
          · have heq : t = t0 := by simpa using hr
            rw [heq]
            exact h1 r t0 rfl ht h0 hm
        · rw [if_neg hm]; exact h2

/-- Every unlink attempt of the cleanup fold is of a path whose unlink
fails, under the same conditions as `cleanupStep_attempts`. -/
theorem cleanupFold_attempts (uf : String → Bool) (rs : List (Option PhotoRecord)) :
    ∀ st : List String × List String,
      (∀ (r : PhotoRecord) (t : String), some r ∈ rs → r.temp_file = some t →
        t ≠ "" → t ∈ st.1 → uf t = true) →
      (∀ t ∈ st.2, uf t = true) →
      ∀ t ∈ (rs.foldl (cleanupStep uf) st).2, uf t = true := by
  induction rs with
  | nil => intro st _ h2; exact h2
  | cons pd rest ih =>
    intro st h1 h2
    rw [List.foldl_cons]
    refine ih (cleanupStep uf st pd) ?_ ?_
    · intro r t hmem ht htne htin
      exact h1 r t (List.mem_cons_of_mem pd hmem) ht htne
        (cleanupStep_subset uf st pd htin)
    · exact cleanupStep_attempts uf st pd
        (fun r t hpd => h1 r t (by rw [hpd]; exact List.mem_cons_self _ _)) h2

/-- C8: `cleanup_temp_files` is idempotent over the batch result, for
every pattern `uf` of caught unlink failures: the second call leaves
the filesystem unchanged; every path it attempts to unlink is one whose
earlier deletion failed (the file is still present, lines 824-827); and
it never attempts an already-deleted temporary path — a path whose
unlink succeeds is gone after the first call, and the `os.path.exists`
guard of line 823 skips it.  Being a total function of the modelled
state, the second call raises nothing. -/
theorem c8_cleanup_idempotent (uf : String → Bool) (fs : List String)
    (records : Option (List (Option PhotoRecord))) :
    (cleanup_temp_files uf (cleanup_temp_files uf fs records).1 records).1 =
      (cleanup_temp_files uf fs records).1 ∧
    (∀ t ∈ (cleanup_temp_files uf (cleanup_temp_files uf fs records).1 records).2,
      uf t = true) ∧
    (∀ t, uf t = false →
      t ∉ (cleanup_temp_files uf (cleanup_temp_files uf fs records).1 records).2) := by
  cases records with
  | none =>
    exact ⟨rfl, fun t htm => absurd htm (List.not_mem_nil _),
      fun t _ htm => absurd htm (List.not_mem_nil _)⟩
  | some rs =>
    have key : ∀ (r : PhotoRecord) (t : String), some r ∈ rs → r.temp_file = some t →
        t ≠ "" → t ∈ ((rs.foldl (cleanupStep uf) (fs, [])).1, ([] : List String)).1 →
        uf t = true := by
      intro r t hmem ht htne htin
      cases huf : uf t with
      | true => rfl
      | false =>
        exact absurd htin (cleanupFold_removes uf rs (fs, []) r t hmem ht htne huf)
    refine ⟨?_, ?_, ?_⟩
    · exact cleanupFold_fs_stable uf rs ((rs.foldl (cleanupStep uf) (fs, [])).1, [])
        (fun r t hmem ht htne huf =>
          cleanupFold_removes uf rs (fs, []) r t hmem ht htne huf)
    · exact cleanupFold_attempts uf rs ((rs.foldl (cleanupStep uf) (fs, [])).1, [])
        key (fun t htm => absurd htm (List.not_mem_nil _))
    · intro t huf htm
      have h := cleanupFold_attempts uf rs ((rs.foldl (cleanupStep uf) (fs, [])).1, [])
        key (fun x hx => absurd hx (List.not_mem_nil _)) t htm
      rw [huf] at h
      exact Bool.noConfusion h

/-- Record of the C8 witness scenario whose temporary file deletes
fine. -/
def recOkC8 : PhotoRecord :=
  { path := "a.heic", filename := "a.heic", caption := JVal.str "a",
    width := none, height := none, latitude := none, longitude := none,
    orientation := none, temp_file := some "/tmp/a.jpg" }

/-- Record of the C8 witness scenario whose temporary file unlink keeps
failing. -/
def recStuckC8 : PhotoRecord :=
  { path := "s.heic", filename := "s.heic", caption := JVal.str "s",
    width := none, height := none, latitude := none, longitude := none,
    orientation := none, temp_file := some "/tmp/stuck.jpg" }

/-- Unlink-failure pattern of the C8 witness scenario. -/
def ufC8 : String → Bool := fun t => t == "/tmp/stuck.jpg"

/-- Witness for `c8_cleanup_idempotent`: in a batch where one unlink
succeeded and one failed, the second call does not attempt the
already-deleted path. -/
theorem c8_cleanup_idempotent_witness :
    "/tmp/a.jpg" ∉ (cleanup_temp_files ufC8
      (cleanup_temp_files ufC8 ["/tmp/a.jpg", "/tmp/stuck.jpg"]
        (some [some recOkC8, some recStuckC8])).1
      (some [some recOkC8, some recStuckC8])).2 :=
  (c8_cleanup_idempotent ufC8 ["/tmp/a.jpg", "/tmp/stuck.jpg"]
    (some [some recOkC8, some recStuckC8])).2.2 "/tmp/a.jpg" (by decide)

/-- Environment whose ExifTool metadata carries an out-of-range compass
bearing. -/
def envC9 : Env :=
  { emptyEnv with exiftoolBag := [("EXIF:GPSImgDirection", JVal.num 450)] }

/-- C9 counterexample: a bearing of 450 degrees is stored on the record
untouched, violating the claimed [0, 360) invariant. -/
theorem c9_counterexample :
    (extract_metadata_from_photo envC9 "beach.jpg").orientation = some (450 : ℚ) ∧
    ¬ ((450 : ℚ) < 360) :=
  ⟨rfl, by norm_num⟩

/-- Environment carrying an arbitrary numeric bearing value. -/
def envOrient (x : ℚ) : Env :=
  { emptyEnv with exiftoolBag := [("EXIF:GPSImgDirection", JVal.num x)] }

/-- C9 (amended): the orientation, when present on a returned record,
is the source value coerced to a decimal with no range restriction:
every numeric bearing — inside [0, 360) or not — is stored as-is. -/
theorem c9_orientation_no_range_check (x : ℚ) :
    (extract_metadata_from_photo (envOrient x) "photo.jpg").orientation = some x := rfl

/-- A record whose temporary path is not on the filesystem. -/
def recC10 : PhotoRecord :=
  { path := "p.heic", filename := "p.heic", caption := JVal.str "c",
    width := none, height := none, latitude := none, longitude := none,
    orientation := none, temp_file := some "/tmp/gone.jpg" }

/-- C10: `cleanup_temp_files` tolerates every degenerate input without
raising (it is a total function of the modelled state): a `None` batch
returns immediately with no attempts, and an entry that is `None`, has
no truthy `temp_file`, or whose path is absent from the filesystem is
skipped without any deletion attempt. -/
theorem c10_cleanup_degenerate :
    (∀ (uf : String → Bool) fs, cleanup_temp_files uf fs none = (fs, [])) ∧
    (∀ uf st, cleanupStep uf st none = st) ∧
    (∀ uf st r, r.temp_file = none → cleanupStep uf st (some r) = st) ∧
    (∀ uf st r, r.temp_file = some "" → cleanupStep uf st (some r) = st) ∧
    (∀ uf st r t, r.temp_file = some t → t ∉ st.1 → cleanupStep uf st (some r) = st) := by
  refine ⟨fun uf fs => rfl, fun uf st => rfl, ?_, ?_, ?_⟩
  · intro uf st r h
    simp only [cleanupStep, h]
  · intro uf st r h
    simp [cleanupStep, h]
  · intro uf st r t h hmem
    simp only [cleanupStep, h]
    by_cases h0 : t = ""
    · rw [if_pos h0]
    · rw [if_neg h0, if_neg hmem]

/-- Witness for `c10_cleanup_degenerate`: a record whose temporary path
is already absent is skipped. -/
theorem c10_cleanup_degenerate_witness :
    cleanupStep (fun _ => false) (["/tmp/other.jpg"], []) (some recC10) =
      (["/tmp/other.jpg"], []) :=
  c10_cleanup_degenerate.2.2.2.2 (fun _ => false) (["/tmp/other.jpg"], []) recC10
    "/tmp/gone.jpg" rfl (by decide)

end PhotoProc
